import Mathlib

/-!
Verification development for the hpct-slurm-client-operator charm.

The development shallowly embeds the relation-driven configuration
synchronizer of the charm: the relation-changed handlers of
`src/charm.py`, the `SlurmClientManager` operations of
`src/manager/slurm_client.py` (`hash`, `write_new_conf`, `install`,
`start`, `stop`, `ipv4_address`), and the bucket data model of the
relation interfaces.  Stateful code is embedded as explicit state
passing over a `HostState` (filesystem plus the two managed services),
and every side effect (service stop/start calls, systemd unit
operations, file writes/removals, status messages, relation-field
writes) is recorded in an event trace so that ordering and counting
properties can be stated.  Python exceptions are embedded as an
`Option CharmError` outcome.
-/

/-- Byte strings are embedded as lists of naturals. -/
abbrev Bytes := List Nat

/-- Content fingerprints (hexdigest strings in the source). -/
abbrev Digest := List Nat

/-- Content fingerprint of a byte string.  The source computes md5 or
sha224 hexdigests; the hash function itself is modelled as an abstract
injective fingerprint (the byte content itself), since per spec P3
digest equality is byte equality and no claim depends on any property
of the concrete hash beyond determinism and collision-freeness. -/
def contentDigest (b : Bytes) : Digest := b

/-- The artifact fields carried by a `FileDataInterface` relation field
(`munge_key` on the auth-munge relation, `slurm_conf` on the
slurm-controller relation).  Each field is `Option` because the relation
databag may not contain it; reading an absent field yields the
interface's declared default. -/
structure FileFields where
  data : Option Bytes
  checksum : Option Digest
  mode : Option Nat
  owner : Option String
  group : Option String
  path : Option String
deriving DecidableEq, Repr

/-- Whether every artifact field is present in the databag. -/
def FileFields.complete (f : FileFields) : Bool :=
  f.data.isSome && f.checksum.isSome && f.mode.isSome && f.owner.isSome
    && f.group.isSome && f.path.isSome

/-- A peer-scoped relation data bucket carrying a nonce and one
file-shaped artifact field. -/
structure Bucket where
  nonce : String
  file : FileFields
deriving DecidableEq, Repr

/-- Installed/running status of one managed host service. -/
structure Service where
  installed : Bool
  running : Bool
deriving DecidableEq, Repr

/-- The two services the charm manages. -/
inductive Svc
  | munge
  | slurmd
deriving DecidableEq, Repr

/-- The consuming host's state: the filesystem (path to byte content)
and the state of the munge and slurmd services. -/
structure HostState where
  files : String → Option Bytes
  munge : Service
  slurmd : Service

/-- Select one of the two services of the host state. -/
def HostState.service (st : HostState) : Svc → Service
  | .munge => st.munge
  | .slurmd => st.slurmd

/-- Update the running flag of one service. -/
def HostState.setRunning (st : HostState) (svc : Svc) (r : Bool) : HostState :=
  match svc with
  | .munge => { st with munge := { st.munge with running := r } }
  | .slurmd => { st with slurmd := { st.slurmd with running := r } }

/-- Write byte content to a path of the filesystem. -/
def HostState.writeFs (st : HostState) (path : String) (data : Bytes) : HostState :=
  { st with files := fun p => if p = path then some data else st.files p }

/-- Remove a path from the filesystem. -/
def HostState.removeFs (st : HostState) (path : String) : HostState :=
  { st with files := fun p => if p = path then none else st.files p }

/-- Observable events emitted by the embedded operations:
manager-level stop/start calls, systemd-level unit operations, file
removals, file writes (tagged with the dependent service's running flag
at the moment of the write), status messages, and relation-field
writes. -/
inductive Ev
  | stopCall (svc : Svc)
  | startCall (svc : Svc)
  | unitStop (svc : Svc)
  | unitStart (svc : Svc)
  | removeFile (path : String)
  | writeFile (path : String) (data : Bytes) (runningAtWrite : Bool)
  | status (msg : String)
  | fieldSet (field : String)
deriving DecidableEq, Repr

/-- Exceptions raised by the embedded code. -/
inductive CharmError
  | slurmdNotFound
  | mungeNotFound
  | slurmConfNotFound
  | mungeKeyMissing
deriving DecidableEq, Repr

/-- Outcome of an apply-like operation: raised exception (if any),
resulting host state, emitted events. -/
structure ApplyResult where
  err : Option CharmError
  state : HostState
  trace : List Ev

/-- The spec's ephemeral SyncDecision, reifying the branch taken by a
relation-changed handler. -/
inductive SyncDecision
  | NotReady
  | UpToDate
  | NeedsUpdate
deriving DecidableEq, Repr

/-- Outcome of a relation-changed handler: decision taken, raised
exception (if any), resulting host state, emitted events. -/
structure StepResult where
  decision : SyncDecision
  err : Option CharmError
  state : HostState
  trace : List Ev

/-- The error raised by a manager operation attempted while its
service's package is not installed (`SlurmdNotFoundError` in the
source for slurmd). -/
def svcNotFound : Svc → CharmError
  | .munge => .mungeNotFound
  | .slurmd => .slurmdNotFound

/-- `SlurmClientManager.stop` (and the analogous munge manager stop):
if the package is installed, call `service_stop` when the service is
running and do nothing otherwise; if not installed, raise. -/
def managerStop (svc : Svc) (st : HostState) : ApplyResult :=
  if (st.service svc).installed then
    if (st.service svc).running then
      ⟨none, st.setRunning svc false, [.stopCall svc, .unitStop svc]⟩
    else
      ⟨none, st, [.stopCall svc]⟩
  else ⟨some (svcNotFound svc), st, []⟩

/-- `SlurmClientManager.start` (and the analogous munge manager start):
if the package is installed, call `service_start` when the service is
not running and do nothing otherwise; if not installed, raise. -/
def managerStart (svc : Svc) (st : HostState) : ApplyResult :=
  if (st.service svc).installed then
    if (st.service svc).running then
      ⟨none, st, [.startCall svc]⟩
    else
      ⟨none, st.setRunning svc true, [.startCall svc, .unitStart svc]⟩
  else ⟨some (svcNotFound svc), st, []⟩

/-- Path of the munge key file (`MungeManager.key_file_path`). -/
def mungeKeyFilePath : String := "/etc/munge/munge.key"

/-- Path of the slurm configuration file
(`SlurmClientManager.conf_file_path`). -/
def confFilePath : String := "/etc/slurm/slurm.conf"

/-- `SlurmClientManager.write_new_conf` from
`src/manager/slurm_client.py`: if slurmd is installed, stop it, remove
`/etc/slurm/slurm.conf` when present, save the received file to its
declared path, and start slurmd again; otherwise raise
`SlurmdNotFoundError`. -/
def write_new_conf (confPath : String) (confData : Bytes) (st : HostState) : ApplyResult :=
  if st.slurmd.installed then
    match managerStop .slurmd st with
    | ⟨some e, st1, tr1⟩ => ⟨some e, st1, tr1⟩
    | ⟨none, st1, tr1⟩ =>
      let rm : HostState × List Ev :=
        if (st1.files confFilePath).isSome then
          (st1.removeFs confFilePath, [.removeFile confFilePath])
        else (st1, [])
      let st3 := rm.1.writeFs confPath confData
      let tr3 : List Ev := [.writeFile confPath confData rm.1.slurmd.running]
      match managerStart .slurmd st3 with
      | ⟨e4, st4, tr4⟩ => ⟨e4, st4, tr1 ++ rm.2 ++ tr3 ++ tr4⟩
  else ⟨some .slurmdNotFound, st, []⟩

/-- Modelled from the spec: `save_file` of the manager base class used
by `src/charm.py` is not under src/ (only its call sites are).  Per
spec section 4.3 apply: require the dependent service installed (else
`ServiceNotInstalled`), stop it, write the artifact bytes to the
destination path, and start it again.  Permission metadata
(mode/owner/group) is not modelled; no claim concerns it. -/
def save_file (svc : Svc) (st : HostState) (data : Bytes) (path : String) : ApplyResult :=
  if (st.service svc).installed then
    match managerStop svc st with
    | ⟨some e, st1, tr1⟩ => ⟨some e, st1, tr1⟩
    | ⟨none, st1, tr1⟩ =>
      let st2 := st1.writeFs path data
      let tr2 : List Ev := [.writeFile path data (st1.service svc).running]
      match managerStart svc st2 with
      | ⟨e3, st3, tr3⟩ => ⟨e3, st3, tr1 ++ tr2 ++ tr3⟩
  else ⟨some (svcNotFound svc), st, []⟩

/-- Modelled from the spec: `MungeManager.get_hash` used by
`src/charm.py` is not under src/.  Per spec section 4.1,
`digestOfFile(path)` returns the fingerprint of the file at the
manager's key path and Absent (`none`) when the file does not exist. -/
def mungeGetHash (st : HostState) : Option Digest :=
  (st.files mungeKeyFilePath).map contentDigest

/-- Modelled from the spec: `SlurmClientManager.get_hash` used by
`src/charm.py` is not under src/.  Per spec section 4.1 and the spec's
design note, the digest is taken over the artifact's own declared
destination path, returning Absent (`none`) when the file does not
exist. -/
def slurmGetHash (st : HostState) : Option Digest :=
  (st.files confFilePath).map contentDigest

/-- `SlurmClientCharm._auth_munge_relation_changed` from
`src/charm.py`: report detection; when the bucket nonce is empty report
not-ready; otherwise when the local munge key digest differs from the
transmitted checksum field, save the received data to the munge key
path and report updated; otherwise report not-updated. -/
def authMungeRelationChanged (st : HostState) (b : Bucket) : StepResult :=
  let hdr : List Ev := [.status "New munge key detected"]
  if b.nonce = "" then
    ⟨.NotReady, none, st, hdr ++ [.status "Munge key is not ready"]⟩
  else if mungeGetHash st ≠ some (b.file.checksum.getD []) then
    match save_file .munge st (b.file.data.getD []) mungeKeyFilePath with
    | ⟨some e, st1, tr1⟩ => ⟨.NeedsUpdate, some e, st1, hdr ++ tr1⟩
    | ⟨none, st1, tr1⟩ =>
      ⟨.NeedsUpdate, none, st1, hdr ++ tr1 ++ [.status "Munge key updated"]⟩
  else ⟨.UpToDate, none, st, hdr ++ [.status "Munge key not updated"]⟩

/-- `SlurmClientCharm._slurm_controller_relation_changed` from
`src/charm.py`: report detection; when the bucket nonce is empty report
not-ready; otherwise when the local slurm.conf digest differs from the
transmitted checksum field, save the received data to the slurm.conf
path and report updated; otherwise report not-updated. -/
def slurmControllerRelationChanged (st : HostState) (b : Bucket) : StepResult :=
  let hdr : List Ev := [.status "New slurm configuration detected"]
  if b.nonce = "" then
    ⟨.NotReady, none, st, hdr ++ [.status "Configuration is not ready yet"]⟩
  else if slurmGetHash st ≠ some (b.file.checksum.getD []) then
    match save_file .slurmd st (b.file.data.getD []) confFilePath with
    | ⟨some e, st1, tr1⟩ => ⟨.NeedsUpdate, some e, st1, hdr ++ tr1⟩
    | ⟨none, st1, tr1⟩ =>
      ⟨.NeedsUpdate, none, st1, hdr ++ tr1 ++ [.status "Slurm configuration updated"]⟩
  else ⟨.UpToDate, none, st, hdr ++ [.status "Slurm configuration does not need to be updated"]⟩

/-- `SlurmClientManager.hash` from `src/manager/slurm_client.py`: when
`/etc/slurm/slurm.conf` exists, return the md5 digest of the bytes of
`/etc/munge/munge.key` (raising if that file cannot be opened);
otherwise raise `SlurmConfNotFoundError`. -/
def SlurmClientManager.hash (files : String → Option Bytes) : Except CharmError Digest :=
  if (files confFilePath).isSome then
    match files mungeKeyFilePath with
    | some b => .ok (contentDigest b)
    | none => .error .mungeKeyMissing
  else .error .slurmConfNotFound

/-- Outcome of the apt package-installation attempt performed by
`apt.add_package`. -/
inductive AptOutcome
  | ok
  | packageNotFound
  | packageError (msg : String)
deriving DecidableEq, Repr

/-- Result of `SlurmClientManager.install`: exception surfaced to the
caller (if any), log lines emitted, and number of installation
attempts made. -/
structure InstallResult where
  err : Option CharmError
  log : List String
  attempts : Nat
deriving DecidableEq, Repr

/-- `SlurmClientManager.install` from `src/manager/slurm_client.py`:
attempt `apt.add_package("slurmd")` once inside a try block;
`PackageNotFoundError` and `PackageError` are caught and logged, and
the `finally` block logs completion; no exception propagates to the
caller and no retry is made. -/
def SlurmClientManager.install (r : AptOutcome) : InstallResult :=
  match r with
  | .ok =>
    ⟨none, ["Installing SLURM Compute Daemon (slurmd).", "slurmd installed."], 1⟩
  | .packageNotFound =>
    ⟨none,
     ["Installing SLURM Compute Daemon (slurmd).",
      "Could not install slurmd. Not found in package cache.",
      "slurmd installed."], 1⟩
  | .packageError m =>
    ⟨none,
     ["Installing SLURM Compute Daemon (slurmd).",
      "Could not install slurmd. Reason: " ++ m ++ ".",
      "slurmd installed."], 1⟩

/-- One address record of a network interface, as probed by sysprober
(`addr_info` entries with an address family and an address). -/
structure AddrInfo where
  family : String
  address : String
deriving DecidableEq, Repr

/-- One network interface record, as probed by sysprober. -/
structure NetIface where
  name : String
  addr_info : List AddrInfo
deriving DecidableEq, Repr

/-- Inner loop of `SlurmClientManager.ipv4_address`: first address of
family inet, if any. -/
def findInetAddr : List AddrInfo → Option String
  | [] => none
  | a :: rest => if a.family = "inet" then some a.address else findInetAddr rest

/-- `SlurmClientManager.ipv4_address` from
`src/manager/slurm_client.py`: scan the interfaces; for each interface
named eth0, return the first inet address found; fall through to
`None` when no eth0 interface carries an inet address. -/
def ipv4_address : List NetIface → Option String
  | [] => none
  | i :: rest =>
    if i.name = "eth0" then
      match findInetAddr i.addr_info with
      | some a => some a
      | none => ipv4_address rest
    else ipv4_address rest

/-- Host facts gathered from the manager properties (`hostname`,
`ipv4_address`, `cpu_count`, `free_memory`). -/
structure HostFacts where
  hostname : String
  ip_address : Option String
  cpu_count : Nat
  free_memory : Nat
deriving DecidableEq, Repr

/-- The unit bucket of the slurm-compute relation (fields declared by
`SlurmComputeUnitInterface` in `src/interfaces/slurm_compute.py`). -/
structure ComputeBucket where
  nonce : String
  hostname : String
  ip_address : Option String
  cpu_count : Nat
  free_memory : Nat
deriving DecidableEq, Repr

/-- `SlurmClientCharm._slurm_compute_relation_joined` from
`src/charm.py`: report serving, assign a freshly generated nonce
(`secrets.token_urlsafe`, passed in as the generator's output) and the
four host-fact fields to the unit bucket, then report served.  The
handler is branch-free: no digest comparison gates the publication. -/
def slurmComputeRelationJoined (b0 : ComputeBucket) (facts : HostFacts)
    (freshNonce : String) : ComputeBucket × List Ev :=
  let b1 := { b0 with nonce := freshNonce }
  let b2 := { b1 with hostname := facts.hostname }
  let b3 := { b2 with ip_address := facts.ip_address }
  let b4 := { b3 with cpu_count := facts.cpu_count }
  let b5 := { b4 with free_memory := facts.free_memory }
  (b5,
   [.status "Serving information to detected controller",
    .fieldSet "nonce", .fieldSet "hostname", .fieldSet "ip_address",
    .fieldSet "cpu_count", .fieldSet "free_memory",
    .status "Information served"])

/-- Number of manager-level stop calls in a trace. -/
def countStop (tr : List Ev) : Nat :=
  (tr.filter fun e => match e with | .stopCall _ => true | _ => false).length

/-- Number of manager-level start calls in a trace. -/
def countStart (tr : List Ev) : Nat :=
  (tr.filter fun e => match e with | .startCall _ => true | _ => false).length

/-- Number of file writes in a trace. -/
def countWrite (tr : List Ev) : Nat :=
  (tr.filter fun e => match e with | .writeFile _ _ _ => true | _ => false).length

/-- Every file write in the trace happens with the dependent service
stopped, after a manager stop call and before a manager start call. -/
def WriteOrdered (tr : List Ev) : Prop :=
  ∀ p d r, Ev.writeFile p d r ∈ tr →
    r = false ∧
    ∃ xs ys, tr = xs ++ Ev.writeFile p d r :: ys ∧
      (∃ s, Ev.stopCall s ∈ xs) ∧ (∃ s, Ev.startCall s ∈ ys)

/-- Two consecutive deliveries of the same bucket through a handler:
the first takes the NeedsUpdate branch with exactly one stop call, one
start call and one file write; the second takes the UpToDate branch,
leaves the state unchanged and performs zero stop calls, start calls
and file writes. -/
def TwiceAppliedOnce (run : HostState → Bucket → StepResult)
    (st : HostState) (b : Bucket) : Prop :=
  (run st b).decision = .NeedsUpdate ∧
  countStop (run st b).trace = 1 ∧
  countStart (run st b).trace = 1 ∧
  countWrite (run st b).trace = 1 ∧
  (run (run st b).state b).decision = .UpToDate ∧
  (run (run st b).state b).state = (run st b).state ∧
  countStop (run (run st b).state b).trace = 0 ∧
  countStart (run (run st b).state b).trace = 0 ∧
  countWrite (run (run st b).state b).trace = 0

/-- Empty filesystem. -/
def fsEmpty : String → Option Bytes := fun _ => none

/-- Filesystem holding only a slurm.conf with content `[1, 2]`. -/
def fsConf : String → Option Bytes :=
  fun p => if p = confFilePath then some [1, 2] else none

/-- Filesystem where slurm.conf holds `[1]` and the munge key holds
`[2]`. -/
def fsTwo : String → Option Bytes :=
  fun p =>
    if p = confFilePath then some [1]
    else if p = mungeKeyFilePath then some [2] else none

/-- Filesystem holding only the munge key with content `[2]`. -/
def fsMungeOnly : String → Option Bytes :=
  fun p => if p = mungeKeyFilePath then some [2] else none

/-- Host with both packages installed, munge stopped, slurmd running,
and an empty filesystem. -/
def stBoth : HostState := ⟨fsEmpty, ⟨true, false⟩, ⟨true, true⟩⟩

/-- Host with both packages installed, both services stopped, and a
filesystem holding only a slurm.conf with content `[1, 2]`. -/
def stConf : HostState := ⟨fsConf, ⟨true, false⟩, ⟨true, false⟩⟩

/-- Host with neither package installed and an empty filesystem. -/
def stNotInstalled : HostState := ⟨fsEmpty, ⟨false, false⟩, ⟨false, false⟩⟩

/-- A bucket with a non-empty nonce and every artifact field absent. -/
def bucketNoFields : Bucket := ⟨"abc", ⟨none, none, none, none, none, none⟩⟩

/-- A bucket whose payload bytes are `[1, 2]` but whose transmitted
checksum field `[9]` does not match the digest of those bytes. -/
def bucketSpoof : Bucket := ⟨"abc", ⟨some [1, 2], some [9], none, none, none, none⟩⟩

/-- A well-formed published bucket: payload bytes `[5]` with matching
transmitted checksum. -/
def bucketConf5 : Bucket := ⟨"n", ⟨some [5], some [5], none, none, none, none⟩⟩

/-- Interface list with no eth0 interface carrying an inet address. -/
def ifacesNoInet : List NetIface :=
  [⟨"lo", [⟨"inet", "127.0.0.1"⟩]⟩, ⟨"eth0", [⟨"inet6", "fe80::1"⟩]⟩]

/-- Claim C1 (amended): the handlers treat a bucket as published and
proceed to the digest comparison whenever the nonce is non-empty,
without validating artifact field presence; whenever the nonce is
empty the decision is NotReady, a not-ready status is reported, the
state is unchanged and no file is written. -/
theorem C1_nonce_only_gating (st : HostState) (b : Bucket) :
    (b.nonce = "" →
      authMungeRelationChanged st b =
        ⟨.NotReady, none, st,
         [.status "New munge key detected", .status "Munge key is not ready"]⟩ ∧
      slurmControllerRelationChanged st b =
        ⟨.NotReady, none, st,
         [.status "New slurm configuration detected",
          .status "Configuration is not ready yet"]⟩) ∧
    (b.nonce ≠ "" →
      (authMungeRelationChanged st b).decision ≠ .NotReady ∧
      (slurmControllerRelationChanged st b).decision ≠ .NotReady) := by
  constructor
  · intro h
    constructor
    · simp [authMungeRelationChanged, h]
    · simp [slurmControllerRelationChanged, h]
  · intro h
    constructor
    · unfold authMungeRelationChanged
      rw [if_neg h]
      by_cases hc : mungeGetHash st ≠ some (b.file.checksum.getD [])
      · rw [if_pos hc]
        rcases hv : save_file .munge st (b.file.data.getD []) mungeKeyFilePath with ⟨e, st1, tr1⟩
        cases e <;> simp
      · rw [if_neg hc]
        simp
    · unfold slurmControllerRelationChanged
      rw [if_neg h]
      by_cases hc : slurmGetHash st ≠ some (b.file.checksum.getD [])
      · rw [if_pos hc]
        rcases hv : save_file .slurmd st (b.file.data.getD []) confFilePath with ⟨e, st1, tr1⟩
        cases e <;> simp
      · rw [if_neg hc]
        simp

/-- Claim C1 counterexample: a bucket with a non-empty nonce and every
artifact field absent is still treated as published — the handler
proceeds to the digest comparison and writes the (default) payload. -/
theorem C1_missing_fields_still_published :
    bucketNoFields.file.complete = false ∧
    (authMungeRelationChanged stBoth bucketNoFields).decision = .NeedsUpdate ∧
    Ev.writeFile mungeKeyFilePath [] false ∈
      (authMungeRelationChanged stBoth bucketNoFields).trace := by
  refine ⟨rfl, rfl, ?_⟩
  decide

/-- Claim C1 witness at concrete inputs. -/
theorem C1_nonce_only_gating_witness :
    (authMungeRelationChanged stConf ⟨"", bucketConf5.file⟩ =
      ⟨.NotReady, none, stConf,
       [.status "New munge key detected", .status "Munge key is not ready"]⟩ ∧
     slurmControllerRelationChanged stConf ⟨"", bucketConf5.file⟩ =
      ⟨.NotReady, none, stConf,
       [.status "New slurm configuration detected",
        .status "Configuration is not ready yet"]⟩) ∧
    ((authMungeRelationChanged stConf bucketConf5).decision ≠ .NotReady ∧
     (slurmControllerRelationChanged stConf bucketConf5).decision ≠ .NotReady) :=
  ⟨(C1_nonce_only_gating stConf ⟨"", bucketConf5.file⟩).1 rfl,
   (C1_nonce_only_gating stConf bucketConf5).2 (by decide)⟩

/-- Claim C2 (amended): for a published (non-empty nonce) bucket the
staleness decision compares the locally computed digest of the on-disk
file against the transmitted checksum field: the remote digest is the
transmitted checksum, not a digest recomputed from the artifact's
bytes. -/
theorem C2_transmitted_checksum_is_remote_digest (st : HostState) (b : Bucket)
    (h : b.nonce ≠ "") :
    ((authMungeRelationChanged st b).decision = .NeedsUpdate ↔
      mungeGetHash st ≠ some (b.file.checksum.getD [])) ∧
    ((slurmControllerRelationChanged st b).decision = .NeedsUpdate ↔
      slurmGetHash st ≠ some (b.file.checksum.getD [])) := by
  constructor
  · unfold authMungeRelationChanged
    rw [if_neg h]
    by_cases hc : mungeGetHash st ≠ some (b.file.checksum.getD [])
    · rw [if_pos hc]
      rcases hv : save_file .munge st (b.file.data.getD []) mungeKeyFilePath with ⟨e, st1, tr1⟩
      cases e <;> simpa using hc
    · rw [if_neg hc]
      simpa using hc
  · unfold slurmControllerRelationChanged
    rw [if_neg h]
    by_cases hc : slurmGetHash st ≠ some (b.file.checksum.getD [])
    · rw [if_pos hc]
      rcases hv : save_file .slurmd st (b.file.data.getD []) confFilePath with ⟨e, st1, tr1⟩
      cases e <;> simpa using hc
    · rw [if_neg hc]
      simpa using hc

/-- Claim C2 witness at concrete inputs. -/
theorem C2_transmitted_checksum_is_remote_digest_witness :
    ((authMungeRelationChanged stConf bucketSpoof).decision = .NeedsUpdate ↔
      mungeGetHash stConf ≠ some (bucketSpoof.file.checksum.getD [])) ∧
    ((slurmControllerRelationChanged stConf bucketSpoof).decision = .NeedsUpdate ↔
      slurmGetHash stConf ≠ some (bucketSpoof.file.checksum.getD [])) :=
  C2_transmitted_checksum_is_remote_digest stConf bucketSpoof (by decide)

/-- Claim C2 counterexample: the digest recomputed from the artifact's
bytes equals the local digest (the claim would demand UpToDate and no
write), yet the handler trusts the mismatching transmitted checksum,
decides NeedsUpdate and rewrites the file. -/
theorem C2_checksum_trusted_counterexample :
    contentDigest (bucketSpoof.file.data.getD []) = [1, 2] ∧
    slurmGetHash stConf = some [1, 2] ∧
    (slurmControllerRelationChanged stConf bucketSpoof).decision = .NeedsUpdate ∧
    countWrite (slurmControllerRelationChanged stConf bucketSpoof).trace = 1 := by
  refine ⟨rfl, by decide, rfl, by decide⟩

/-- Helper: a trace consisting of a write-free prefix holding a stop
call, a single file write with the service stopped, and a write-free
suffix holding a start call, is write-ordered. -/
theorem writeOrdered_shape (a c : List Ev) (p : String) (d : Bytes)
    (hstop : ∃ s, Ev.stopCall s ∈ a) (hstart : ∃ s, Ev.startCall s ∈ c)
    (hna : ∀ q e r, Ev.writeFile q e r ∉ a)
    (hnc : ∀ q e r, Ev.writeFile q e r ∉ c) :
    WriteOrdered (a ++ Ev.writeFile p d false :: c) := by
  intro p' d' r' hmem
  rcases List.mem_append.mp hmem with hA | hB
  · exact absurd hA (hna p' d' r')
  · rcases List.mem_cons.mp hB with heq | hC
    · injection heq with h1 h2 h3
      subst h1
      subst h2
      subst h3
      exact ⟨rfl, a, c, rfl, hstop, hstart⟩
    · exact absurd hC (hnc p' d' r')

/-- Claim C3: in every apply of a new artifact — `write_new_conf` and
the spec-modelled `save_file` — the dependent service is stopped before
the artifact file is written and started after the write completes; no
write occurs with the service running. -/
theorem C3_stop_write_start_order :
    (∀ p d st, WriteOrdered (write_new_conf p d st).trace) ∧
    (∀ svc st d p, WriteOrdered (save_file svc st d p).trace) := by
  constructor
  · intro p d st
    obtain ⟨f, m, sl⟩ := st
    obtain ⟨si, sr⟩ := sl
    cases si
    · intro p' d' r' h
      simp [write_new_conf] at h
    · cases sr <;> by_cases hf : (f confFilePath).isSome
      · have htr : (write_new_conf p d ⟨f, m, ⟨true, false⟩⟩).trace =
            [.stopCall .slurmd, .removeFile confFilePath, .writeFile p d false,
             .startCall .slurmd, .unitStart .slurmd] := by
          simp [write_new_conf, managerStop, managerStart, HostState.service,
            HostState.setRunning, HostState.writeFs, HostState.removeFs, hf]
        rw [htr]
        exact writeOrdered_shape [.stopCall .slurmd, .removeFile confFilePath]
          [.startCall .slurmd, .unitStart .slurmd] p d
          ⟨.slurmd, by simp⟩ ⟨.slurmd, by simp⟩
          (by intro q e r hq; simp at hq) (by intro q e r hq; simp at hq)
      · have htr : (write_new_conf p d ⟨f, m, ⟨true, false⟩⟩).trace =
            [.stopCall .slurmd, .writeFile p d false,
             .startCall .slurmd, .unitStart .slurmd] := by
          simp [write_new_conf, managerStop, managerStart, HostState.service,
            HostState.setRunning, HostState.writeFs, HostState.removeFs, hf]
        rw [htr]
        exact writeOrdered_shape [.stopCall .slurmd]
          [.startCall .slurmd, .unitStart .slurmd] p d
          ⟨.slurmd, by simp⟩ ⟨.slurmd, by simp⟩
          (by intro q e r hq; simp at hq) (by intro q e r hq; simp at hq)
      · have htr : (write_new_conf p d ⟨f, m, ⟨true, true⟩⟩).trace =
            [.stopCall .slurmd, .unitStop .slurmd, .removeFile confFilePath,
             .writeFile p d false, .startCall .slurmd, .unitStart .slurmd] := by
          simp [write_new_conf, managerStop, managerStart, HostState.service,
            HostState.setRunning, HostState.writeFs, HostState.removeFs, hf]
        rw [htr]
        exact writeOrdered_shape
          [.stopCall .slurmd, .unitStop .slurmd, .removeFile confFilePath]
          [.startCall .slurmd, .unitStart .slurmd] p d
          ⟨.slurmd, by simp⟩ ⟨.slurmd, by simp⟩
          (by intro q e r hq; simp at hq) (by intro q e r hq; simp at hq)
      · have htr : (write_new_conf p d ⟨f, m, ⟨true, true⟩⟩).trace =
            [.stopCall .slurmd, .unitStop .slurmd, .writeFile p d false,
             .startCall .slurmd, .unitStart .slurmd] := by
          simp [write_new_conf, managerStop, managerStart, HostState.service,
            HostState.setRunning, HostState.writeFs, HostState.removeFs, hf]
        rw [htr]
        exact writeOrdered_shape [.stopCall .slurmd, .unitStop .slurmd]
          [.startCall .slurmd, .unitStart .slurmd] p d
          ⟨.slurmd, by simp⟩ ⟨.slurmd, by simp⟩
          (by intro q e r hq; simp at hq) (by intro q e r hq; simp at hq)
  · intro svc st d p
    obtain ⟨f, m, sl⟩ := st
    obtain ⟨mi, mr⟩ := m
    obtain ⟨si, sr⟩ := sl
    cases svc
    · cases mi
      · intro p' d' r' h
        simp [save_file, HostState.service] at h
      · cases mr
        · have htr : (save_file .munge ⟨f, ⟨true, false⟩, ⟨si, sr⟩⟩ d p).trace =
              [.stopCall .munge, .writeFile p d false,
               .startCall .munge, .unitStart .munge] := by
            simp [save_file, managerStop, managerStart, HostState.service,
              HostState.setRunning, HostState.writeFs]
          rw [htr]
          exact writeOrdered_shape [.stopCall .munge]
            [.startCall .munge, .unitStart .munge] p d
            ⟨.munge, by simp⟩ ⟨.munge, by simp⟩
            (by intro q e r hq; simp at hq) (by intro q e r hq; simp at hq)
        · have htr : (save_file .munge ⟨f, ⟨true, true⟩, ⟨si, sr⟩⟩ d p).trace =
              [.stopCall .munge, .unitStop .munge, .writeFile p d false,
               .startCall .munge, .unitStart .munge] := by
            simp [save_file, managerStop, managerStart, HostState.service,
              HostState.setRunning, HostState.writeFs]
          rw [htr]
          exact writeOrdered_shape [.stopCall .munge, .unitStop .munge]
            [.startCall .munge, .unitStart .munge] p d
            ⟨.munge, by simp⟩ ⟨.munge, by simp⟩
            (by intro q e r hq; simp at hq) (by intro q e r hq; simp at hq)
    · cases si
      · intro p' d' r' h
        simp [save_file, HostState.service] at h
      · cases sr
        · have htr : (save_file .slurmd ⟨f, ⟨mi, mr⟩, ⟨true, false⟩⟩ d p).trace =
              [.stopCall .slurmd, .writeFile p d false,
               .startCall .slurmd, .unitStart .slurmd] := by
            simp [save_file, managerStop, managerStart, HostState.service,
              HostState.setRunning, HostState.writeFs]
          rw [htr]
          exact writeOrdered_shape [.stopCall .slurmd]
            [.startCall .slurmd, .unitStart .slurmd] p d
            ⟨.slurmd, by simp⟩ ⟨.slurmd, by simp⟩
            (by intro q e r hq; simp at hq) (by intro q e r hq; simp at hq)
        · have htr : (save_file .slurmd ⟨f, ⟨mi, mr⟩, ⟨true, true⟩⟩ d p).trace =
              [.stopCall .slurmd, .unitStop .slurmd, .writeFile p d false,
               .startCall .slurmd, .unitStart .slurmd] := by
            simp [save_file, managerStop, managerStart, HostState.service,
              HostState.setRunning, HostState.writeFs]
          rw [htr]
          exact writeOrdered_shape [.stopCall .slurmd, .unitStop .slurmd]
            [.startCall .slurmd, .unitStart .slurmd] p d
            ⟨.slurmd, by simp⟩ ⟨.slurmd, by simp⟩
            (by intro q e r hq; simp at hq) (by intro q e r hq; simp at hq)

/-- Claim C3 witness at concrete inputs. -/
theorem C3_stop_write_start_order_witness :
    Ev.writeFile confFilePath [7] false ∈ (write_new_conf confFilePath [7] stBoth).trace ∧
    (false = false ∧
      ∃ xs ys, (write_new_conf confFilePath [7] stBoth).trace =
          xs ++ Ev.writeFile confFilePath [7] false :: ys ∧
        (∃ s, Ev.stopCall s ∈ xs) ∧ (∃ s, Ev.startCall s ∈ ys)) :=
  ⟨by decide,
   C3_stop_write_start_order.1 confFilePath [7] stBoth confFilePath [7] false (by decide)⟩

/-- Claim C4: evaluating the `hash` property on a filesystem where
slurm.conf holds `[1]` and the munge key holds `[2]` returns the
digest of the munge key's bytes, not the digest of the slurm
configuration's bytes — the property hashes a hard-coded unrelated
path. -/
theorem C4_hash_digests_munge_key_not_conf :
    SlurmClientManager.hash fsTwo = .ok (contentDigest [2]) ∧
    contentDigest [2] ≠ contentDigest [1] :=
  ⟨rfl, by decide⟩

/-- Claim C5 (amended): computing the digest when
`/etc/slurm/slurm.conf` does not exist raises `SlurmConfNotFoundError`
rather than returning an Absent value. -/
theorem C5_missing_conf_raises (fs : String → Option Bytes)
    (h : fs confFilePath = none) :
    SlurmClientManager.hash fs = .error .slurmConfNotFound := by
  simp [SlurmClientManager.hash, h]

/-- Claim C5 witness at a concrete filesystem. -/
theorem C5_missing_conf_raises_witness :
    SlurmClientManager.hash fsMungeOnly = .error .slurmConfNotFound :=
  C5_missing_conf_raises fsMungeOnly (by decide)

/-- Claim C5 counterexample: on the empty filesystem the `hash`
property raises (returns an error), never an Absent/ok result. -/
theorem C5_hash_errors_not_absent :
    SlurmClientManager.hash fsEmpty = .error .slurmConfNotFound := rfl

/-- Claim C6: applying a new configuration while slurmd is not
installed fails with the not-installed error and leaves the state
unchanged with no events (no write, no stop/start); when slurmd is
installed the apply completes without raising that error. -/
theorem C6_not_installed_guard (p : String) (d : Bytes) (st : HostState) :
    (st.slurmd.installed = false →
      write_new_conf p d st = ⟨some .slurmdNotFound, st, []⟩) ∧
    (st.slurmd.installed = true → (write_new_conf p d st).err = none) := by
  obtain ⟨f, m, sl⟩ := st
  obtain ⟨si, sr⟩ := sl
  constructor
  · intro h
    subst h
    simp [write_new_conf]
  · intro h
    subst h
    cases sr <;> by_cases hf : (f confFilePath).isSome <;>
      simp [write_new_conf, managerStop, managerStart, HostState.service,
        HostState.setRunning, HostState.writeFs, HostState.removeFs, hf]

/-- Claim C6 witness at concrete inputs. -/
theorem C6_not_installed_guard_witness :
    write_new_conf confFilePath [3] stNotInstalled =
      ⟨some .slurmdNotFound, stNotInstalled, []⟩ ∧
    (write_new_conf confFilePath [3] stBoth).err = none :=
  ⟨(C6_not_installed_guard confFilePath [3] stNotInstalled).1 rfl,
   (C6_not_installed_guard confFilePath [3] stBoth).2 rfl⟩

/-- Claim C7: delivering a well-formed published bucket (non-empty
nonce, transmitted checksum equal to the digest of its bytes) twice in
a row, starting from a state whose local digest differs, applies on
the first delivery with exactly one stop call, one start call and one
file write, and short-circuits on the second delivery at the UpToDate
branch with no state change and zero stop/start/write events. -/
theorem C7_second_delivery_short_circuits (st : HostState) (b : Bucket) (data : Bytes)
    (hn : b.nonce ≠ "") (hd : b.file.data = some data)
    (hc : b.file.checksum = some (contentDigest data)) :
    (st.munge.installed = true →
      mungeGetHash st ≠ some (contentDigest data) →
      TwiceAppliedOnce authMungeRelationChanged st b) ∧
    (st.slurmd.installed = true →
      slurmGetHash st ≠ some (contentDigest data) →
      TwiceAppliedOnce slurmControllerRelationChanged st b) := by
  constructor
  · intro hi hne
    simp [mungeGetHash] at hne
    cases hr : st.munge.running <;>
      refine ⟨?_, ?_, ?_, ?_, ?_, ?_, ?_, ?_, ?_⟩ <;>
        simp [TwiceAppliedOnce, authMungeRelationChanged, save_file, managerStop,
          managerStart, HostState.service, HostState.setRunning, HostState.writeFs,
          mungeGetHash, countStop, countStart, countWrite,
          hn, hd, hc, hi, hr, eq_true hne]
  · intro hi hne
    simp [slurmGetHash] at hne
    cases hr : st.slurmd.running <;>
      refine ⟨?_, ?_, ?_, ?_, ?_, ?_, ?_, ?_, ?_⟩ <;>
        simp [TwiceAppliedOnce, slurmControllerRelationChanged, save_file, managerStop,
          managerStart, HostState.service, HostState.setRunning, HostState.writeFs,
          slurmGetHash, countStop, countStart, countWrite,
          hn, hd, hc, hi, hr, eq_true hne]

/-- Claim C7 witness at concrete inputs. -/
theorem C7_second_delivery_short_circuits_witness :
    TwiceAppliedOnce authMungeRelationChanged stBoth bucketConf5 ∧
    TwiceAppliedOnce slurmControllerRelationChanged stBoth bucketConf5 :=
  ⟨(C7_second_delivery_short_circuits stBoth bucketConf5 [5] (by decide) rfl rfl).1
      rfl (by decide),
   (C7_second_delivery_short_circuits stBoth bucketConf5 [5] (by decide) rfl rfl).2
      rfl (by decide)⟩

/-- Claim C8: on every triggering event the joined handler publishes a
bucket holding exactly the freshly generated nonce and the four host
facts, writing each field exactly once and emitting no other events
than the two status messages — unconditionally, with no digest
comparison. -/
theorem C8_self_publication_unconditional (b0 : ComputeBucket) (facts : HostFacts)
    (freshNonce : String) :
    slurmComputeRelationJoined b0 facts freshNonce =
      (⟨freshNonce, facts.hostname, facts.ip_address, facts.cpu_count,
        facts.free_memory⟩,
       [.status "Serving information to detected controller",
        .fieldSet "nonce", .fieldSet "hostname", .fieldSet "ip_address",
        .fieldSet "cpu_count", .fieldSet "free_memory",
        .status "Information served"]) := rfl

/-- Claim C9 counterexample: when the package is not found in the
cache, `install` completes without surfacing any error to its
caller — the failure is only logged. -/
theorem C9_install_error_not_surfaced :
    (SlurmClientManager.install .packageNotFound).err = none ∧
    (SlurmClientManager.install .packageNotFound).log =
      ["Installing SLURM Compute Daemon (slurmd).",
       "Could not install slurmd. Not found in package cache.",
       "slurmd installed."] := ⟨rfl, rfl⟩

/-- Claim C9 (amended): on every apt outcome — success, package not
found, or package/transport error — `install` returns normally with no
error surfaced to the caller, and makes exactly one installation
attempt (no automatic retry). -/
theorem C9_install_swallows_and_never_retries (r : AptOutcome) :
    (SlurmClientManager.install r).err = none ∧
    (SlurmClientManager.install r).attempts = 1 := by
  cases r <;> exact ⟨rfl, rfl⟩

/-- Helper: the inner address loop finds nothing when no address has
family inet. -/
theorem findInetAddr_eq_none (addrs : List AddrInfo)
    (h : ∀ a ∈ addrs, a.family ≠ "inet") : findInetAddr addrs = none := by
  induction addrs with
  | nil => rfl
  | cons a rest ih =>
    simp only [findInetAddr]
    rw [if_neg (h a (List.mem_cons_self a rest))]
    exact ih fun x hx => h x (List.mem_cons_of_mem a hx)

/-- Claim C10: when no interface named eth0 carries an inet address,
`ipv4_address` falls through and returns none. -/
theorem C10_no_eth0_inet_gives_none (ifaces : List NetIface)
    (h : ∀ i ∈ ifaces, i.name = "eth0" → ∀ a ∈ i.addr_info, a.family ≠ "inet") :
    ipv4_address ifaces = none := by
  induction ifaces with
  | nil => rfl
  | cons i rest ih =>
    simp only [ipv4_address]
    by_cases hm : i.name = "eth0"
    · rw [if_pos hm]
      rw [findInetAddr_eq_none i.addr_info (h i (List.mem_cons_self i rest) hm)]
      exact ih fun x hx => h x (List.mem_cons_of_mem i hx)
    · rw [if_neg hm]
      exact ih fun x hx => h x (List.mem_cons_of_mem i hx)

/-- Claim C10 witness at a concrete interface list. -/
theorem C10_no_eth0_inet_gives_none_witness :
    ipv4_address ifacesNoInet = none :=
  C10_no_eth0_inet_gives_none ifacesNoInet (by decide)
